import Mathlib

/-!
Verification of the nilch frontend query-dispatch layer.

Shallow embedding of `src/frontend/script/results.js` (web results page and
the image results page bundled in the same file) and
`src/frontend/script/videos.js`.  Strings are modelled as `List Char`
(Unicode code points).  JS runtime behaviour that the scripts rely on
(`encodeURIComponent`, `URLSearchParams`, `parseInt`, `JSON.parse`, regex
matching, truthiness, `||`) is modelled explicitly below, each with a note
on scope.  DOM writes are modelled as the final rendered view; navigations
(`window.location.href` assignments, `location.reload`) are modelled as
explicit effect values.
-/

set_option maxRecDepth 100000
set_option maxHeartbeats 1000000

namespace Nilch

/-! ## JS primitive string semantics -/

/-- The set matched by the regex class `\s` in JS (also the characters
removed by `String.prototype.trim`). -/
def isJsWhitespace (c : Char) : Bool :=
  let n := c.toNat
  n = 32 ∨ n = 9 ∨ n = 10 ∨ n = 11 ∨ n = 12 ∨ n = 13 ∨ n = 160 ∨ n = 5760 ∨
    (8192 ≤ n ∧ n ≤ 8202) ∨ n = 8232 ∨ n = 8233 ∨ n = 8239 ∨ n = 8287 ∨
    n = 12288 ∨ n = 65279

/-- JS line terminators: the characters NOT matched by `.` in a regex
without the `s` flag. -/
def isLineTerminator (c : Char) : Bool :=
  let n := c.toNat
  n = 10 ∨ n = 13 ∨ n = 8232 ∨ n = 8233

def isAsciiLetter (c : Char) : Bool :=
  ('a' ≤ c ∧ c ≤ 'z') ∨ ('A' ≤ c ∧ c ≤ 'Z')

def isDigitChar (c : Char) : Bool := '0' ≤ c ∧ c ≤ '9'

/-- `String.prototype.trim`. -/
def jsTrim (s : List Char) : List Char :=
  ((s.dropWhile isJsWhitespace).reverse.dropWhile isJsWhitespace).reverse

/-- `a || b` where `a` is a JS string or `null` (`none`): the default is
taken when the value is `null` or the empty string (both falsy). -/
def jsOr (o : Option (List Char)) (dflt : List Char) : List Char :=
  match o with
  | some v => if v = [] then dflt else v
  | none => dflt

/-- `String(x)` for a JS string-or-null value: `String(null) = "null"`
(this is what `encodeURIComponent` receives when the `q` parameter is
absent). -/
def jsStringOrNull (o : Option (List Char)) : List Char :=
  match o with
  | some v => v
  | none => ("null".data)

/-- Upper-case hex digit, for percent-encoding. -/
def hexDigitUpper (n : Nat) : Char :=
  if n < 10 then Char.ofNat (48 + n) else Char.ofNat (55 + n)

/-- UTF-8 bytes of a code point (Lean `Char` excludes surrogates, as do
well-formed JS strings reaching `encodeURIComponent` without throwing). -/
def utf8Bytes (c : Char) : List Nat :=
  let n := c.toNat
  if n < 128 then [n]
  else if n < 2048 then [192 + n / 64, 128 + n % 64]
  else if n < 65536 then [224 + n / 4096, 128 + (n / 64) % 64, 128 + n % 64]
  else [240 + n / 262144, 128 + (n / 4096) % 64, 128 + (n / 64) % 64, 128 + n % 64]

def percentByte (b : Nat) : List Char :=
  ['%', hexDigitUpper (b / 16), hexDigitUpper (b % 16)]

/-- Characters `encodeURIComponent` leaves unescaped:
`A-Z a-z 0-9 - _ . ! ~ * ' ( )`. -/
def isUriUnreserved (c : Char) : Bool :=
  isAsciiLetter c ∨ isDigitChar c ∨
    c = '-' ∨ c = '_' ∨ c = '.' ∨ c = '!' ∨ c = '~' ∨ c = '*' ∨
    c = '\x27' ∨ c = '(' ∨ c = ')'

/-- `encodeURIComponent`. -/
def encodeURIComponent (s : List Char) : List Char :=
  s.flatMap fun c =>
    if isUriUnreserved c then [c] else (utf8Bytes c).flatMap percentByte

/-- Decimal digits of a natural number (used for JS number-to-string of the
small non-negative integers the scripts interpolate into URLs and labels). -/
def natToStr (n : Nat) : List Char := Nat.toDigits 10 n

def intToStr (i : Int) : List Char :=
  if i < 0 then '-' :: natToStr i.natAbs else natToStr i.natAbs

/-- String of a JS number that is either an integer or `NaN` (`none`). -/
def jsNumStr (o : Option Int) : List Char :=
  match o with
  | some i => intToStr i
  | none => ("NaN".data)

def digitVal (c : Char) : Option Nat :=
  if isDigitChar c then some (c.toNat - 48) else none

def hexVal (c : Char) : Option Nat :=
  if isDigitChar c then some (c.toNat - 48)
  else if 'a' ≤ c ∧ c ≤ 'f' then some (c.toNat - 87)
  else if 'A' ≤ c ∧ c ≤ 'F' then some (c.toNat - 55)
  else none

/-- Parse the longest prefix of digits in the given base; `none` when there
is no digit at all (JS `NaN`).  Trailing garbage is ignored, as in
`parseInt`. -/
def parseDigitsWith (f : Char → Option Nat) (base : Nat) (s : List Char) : Option Nat :=
  let ds := s.takeWhile fun c => (f c).isSome
  if ds = [] then none
  else some (ds.foldl (fun acc c => acc * base + (f c).getD 0) 0)

/-- `parseInt(s)` with no radix argument: trim whitespace, optional sign,
auto-detected `0x` hex prefix, longest digit prefix, `NaN` (`none`) when no
digit is found. -/
def parseIntJs (s : List Char) : Option Int :=
  let t := s.dropWhile isJsWhitespace
  match t with
  | '-' :: r => (parseIntMag r).map fun n => -(n : Int)
  | '+' :: r => (parseIntMag r).map fun n => (n : Int)
  | r => (parseIntMag r).map fun n => (n : Int)
where
  parseIntMag (r : List Char) : Option Nat :=
    match r with
    | '0' :: 'x' :: rest => parseDigitsWith hexVal 16 rest
    | '0' :: 'X' :: rest => parseDigitsWith hexVal 16 rest
    | rest => parseDigitsWith digitVal 10 rest

/-- Boolean prefix test (0-ary model of `String.startsWith`, used for the
first-occurrence semantics of `String.prototype.replace`). -/
def leadsWith : List Char → List Char → Bool
  | [], _ => true
  | _ :: _, [] => false
  | a :: as, b :: bs => a = b && leadsWith as bs

/-- `s.replace(pat, repl)` for a nonempty string pattern `pat`: replace the
FIRST occurrence only, or return the string unchanged when `pat` does not
occur.  (The replacement strings produced by `encodeURIComponent` never
contain `$`, so the `$`-pattern rules of `String.prototype.replace` never
fire and are not modelled.) -/
def replaceFirst (pat repl : List Char) : List Char → List Char
  | [] => []
  | c :: cs =>
    if leadsWith pat (c :: cs) then repl ++ List.drop pat.length (c :: cs)
    else c :: replaceFirst pat repl cs

/-! ## URLSearchParams model

A `URLSearchParams` value is an ordered list of key/value pairs.  The pages
read parameters with `get` (first match or `null`) and update them with
`set` (update the first matching pair in place, drop later duplicates of the
key, append when absent), matching the WHATWG semantics of the two methods
actually used. -/

/-- Ordered parameter list, as held by a `URLSearchParams` object. -/
abbrev Params : Type := List (List Char × List Char)

/-- `urlParams.get(k)`: first match or `null`. -/
def getFirst (k : List Char) : Params → Option (List Char)
  | [] => none
  | (k0, v0) :: rest => if k0 = k then some v0 else getFirst k rest

def removeKey (k : List Char) : Params → Params
  | [] => []
  | p :: rest => if p.1 = k then removeKey k rest else p :: removeKey k rest

/-- `urlParams.set(k, v)`. -/
def setParam (k v : List Char) : Params → Params
  | [] => [(k, v)]
  | (k0, v0) :: rest =>
    if k0 = k then (k, v) :: removeKey k rest
    else (k0, v0) :: setParam k v rest

/-- The query part of a URL string: everything after the first `?` (empty
when there is no `?`), as exposed by `location.search` minus its leading
`?`. -/
def queryOf (url : List Char) : List Char :=
  List.drop 1 (url.dropWhile fun c => ¬ c = '?')

/-- `application/x-www-form-urlencoded` percent-decoding of one token.
`+` becomes a space; `%XX` becomes the character with that code.  Scope
note: multi-byte UTF-8 percent sequences are decoded byte-by-byte, which is
only faithful for ASCII escapes -- every input this development evaluates is
ASCII. -/
def formDecode : List Char → List Char
  | [] => []
  | '+' :: rest => ' ' :: formDecode rest
  | '%' :: a :: b :: rest =>
    match hexVal a, hexVal b with
    | some ha, some hb => Char.ofNat (ha * 16 + hb) :: formDecode rest
    | _, _ => '%' :: formDecode (a :: b :: rest)
  | c :: rest => c :: formDecode rest

/-- One `k=v` piece of a query string; pieces without `=` become a key with
empty value; empty pieces are skipped by the caller. -/
def parsePair (piece : List Char) : List Char × List Char :=
  let k := piece.takeWhile fun c => ¬ c = '='
  let v := List.drop 1 (piece.dropWhile fun c => ¬ c = '=')
  (formDecode k, formDecode v)

/-- `new URLSearchParams(queryString)`: split on `&`, drop empty pieces,
decode each pair. -/
def parseQuery (s : List Char) : Params :=
  (s.splitOn '&').filterMap fun piece =>
    if piece = [] then none else some (parsePair piece)

/-! ## JSON model and `JSON.parse`

`Json` is the value space of `JSON.parse`; numbers keep their raw source
token (no claim in this development inspects a numeric value beyond
truthiness).  The parser below implements the JSON grammar (RFC 8259):
`JSON.parse(body)` is modelled by `jsonParse body`, with `none` standing
for a thrown `SyntaxError`. -/

inductive Json
  | null
  | bool (b : Bool)
  | num (raw : List Char)
  | str (s : List Char)
  | arr (xs : List Json)
  | obj (fields : List (List Char × Json))

/-- JSON insignificant whitespace. -/
def isJsonWs (c : Char) : Bool := c = ' ' ∨ c = '\t' ∨ c = '\n' ∨ c = '\r'

def skipWs (s : List Char) : List Char := s.dropWhile isJsonWs

/-- Body of a JSON string literal, after the opening quote; returns the
decoded characters and the input after the closing quote.  Surrogate-pair
`\uXXXX` escapes are combined; a lone surrogate (representable in a JS
string but not in `Char`) decodes to U+FFFD.  The fuel argument only bounds
recursion; every caller passes more fuel than the input length, so it never
runs out. -/
def parseJsonStringBody : Nat → List Char → Option (List Char × List Char)
  | 0, _ => none
  | _, [] => none
  | fuel + 1, c :: cs =>
    if c = '"' then some ([], cs)
    else if c = '\\' then
      match cs with
      | [] => none
      | e :: cs2 =>
        if e = 'u' then
          match cs2 with
          | a :: b :: c1 :: d :: cs3 =>
            match hexVal a, hexVal b, hexVal c1, hexVal d with
            | some ha, some hb, some hc, some hd =>
              let code := ((ha * 16 + hb) * 16 + hc) * 16 + hd
              if 55296 ≤ code ∧ code ≤ 56319 then
                -- high surrogate: try to combine with a following \uXXXX low surrogate
                match cs3 with
                | '\\' :: 'u' :: a2 :: b2 :: c2 :: d2 :: cs4 =>
                  match hexVal a2, hexVal b2, hexVal c2, hexVal d2 with
                  | some ha2, some hb2, some hc2, some hd2 =>
                    let lo := ((ha2 * 16 + hb2) * 16 + hc2) * 16 + hd2
                    if 56320 ≤ lo ∧ lo ≤ 57343 then
                      (parseJsonStringBody fuel cs4).map fun r =>
                        (Char.ofNat (65536 + (code - 55296) * 1024 + (lo - 56320)) :: r.1, r.2)
                    else (parseJsonStringBody fuel cs4).map fun r =>
                      (Char.ofNat 65533 :: Char.ofNat 65533 :: r.1, r.2)
                  | _, _, _, _ => none
                | _ =>
                  (parseJsonStringBody fuel cs3).map fun r => (Char.ofNat 65533 :: r.1, r.2)
              else if 56320 ≤ code ∧ code ≤ 57343 then
                (parseJsonStringBody fuel cs3).map fun r => (Char.ofNat 65533 :: r.1, r.2)
              else
                (parseJsonStringBody fuel cs3).map fun r => (Char.ofNat code :: r.1, r.2)
            | _, _, _, _ => none
          | _ => none
        else
          match
            (if e = '"' then some '"'
             else if e = '\\' then some '\\'
             else if e = '/' then some '/'
             else if e = 'b' then some '\x08'
             else if e = 'f' then some '\x0c'
             else if e = 'n' then some '\n'
             else if e = 'r' then some '\r'
             else if e = 't' then some '\t'
             else none) with
          | some decoded => (parseJsonStringBody fuel cs2).map fun r => (decoded :: r.1, r.2)
          | none => none
    else if c.toNat < 32 then none
    else (parseJsonStringBody fuel cs).map fun r => (c :: r.1, r.2)

/-- Lex a JSON number token (RFC 8259 grammar), returning the raw token and
the rest of the input. -/
def parseJsonNumber (s : List Char) : Option (List Char × List Char) :=
  let (neg, s1) := match s with
    | '-' :: rest => (['-'], rest)
    | _ => (([] : List Char), s)
  match s1 with
  | [] => none
  | c :: _ =>
    if ¬ isDigitChar c then none
    else
      let intPart := s1.takeWhile isDigitChar
      if 1 < intPart.length ∧ intPart.headD '0' = '0' then none
      else
        let s2 := s1.dropWhile isDigitChar
        let (fracPart, s3) := match s2 with
          | '.' :: rest =>
            let ds := rest.takeWhile isDigitChar
            if ds = [] then (none, s2) else (some ('.' :: ds), rest.dropWhile isDigitChar)
          | _ => (none, s2)
        match fracPart, s2, s3 with
        | none, '.' :: _, _ => none
        | fp, _, s3 =>
          let (expPart, s4) : Option (List Char) × List Char := match s3 with
            | e :: rest =>
              if e = 'e' ∨ e = 'E' then
                let (sgn, rest2) := match rest with
                  | '+' :: r => (['+'], r)
                  | '-' :: r => (['-'], r)
                  | r => (([] : List Char), r)
                let ds := rest2.takeWhile isDigitChar
                if ds = [] then (none, ([] : List Char))
                else (some (e :: sgn ++ ds), rest2.dropWhile isDigitChar)
              else (some [], s3)
            | [] => (some [], s3)
          match expPart with
          | none => none
          | some ep => some (neg ++ intPart ++ (fp.getD []) ++ ep, s4)

mutual

/-- One JSON value (after leading whitespace), with explicit fuel. -/
def parseJsonVal : Nat → List Char → Option (Json × List Char)
  | 0, _ => none
  | fuel + 1, s =>
    match skipWs s with
    | [] => none
    | c :: cs =>
      if c = 'n' then
        match cs with
        | 'u' :: 'l' :: 'l' :: rest => some (.null, rest)
        | _ => none
      else if c = 't' then
        match cs with
        | 'r' :: 'u' :: 'e' :: rest => some (.bool true, rest)
        | _ => none
      else if c = 'f' then
        match cs with
        | 'a' :: 'l' :: 's' :: 'e' :: rest => some (.bool false, rest)
        | _ => none
      else if c = '"' then
        (parseJsonStringBody (fuel + 1) cs).map fun r => (.str r.1, r.2)
      else if c = '[' then
        match skipWs cs with
        | ']' :: rest => some (.arr [], rest)
        | _ => (parseJsonElems fuel cs).map fun r => (.arr r.1, r.2)
      else if c = Char.ofNat 123 then
        match skipWs cs with
        | rest =>
          if leadsWith [Char.ofNat 125] rest then some (.obj [], List.drop 1 rest)
          else (parseJsonMembers fuel cs).map fun r => (.obj r.1, r.2)
      else
        (parseJsonNumber (c :: cs)).map fun r => (.num r.1, r.2)

/-- Comma-separated array elements, then `]`. -/
def parseJsonElems : Nat → List Char → Option (List Json × List Char)
  | 0, _ => none
  | fuel + 1, s =>
    match parseJsonVal fuel s with
    | none => none
    | some (v, rest) =>
      match skipWs rest with
      | ',' :: rest2 => (parseJsonElems fuel rest2).map fun r => (v :: r.1, r.2)
      | ']' :: rest2 => some ([v], rest2)
      | _ => none

/-- Comma-separated `"key": value` members, then a closing brace. -/
def parseJsonMembers : Nat → List Char → Option (List (List Char × Json) × List Char)
  | 0, _ => none
  | fuel + 1, s =>
    match skipWs s with
    | '"' :: cs =>
      match parseJsonStringBody (fuel + 1) cs with
      | none => none
      | some (k, rest) =>
        match skipWs rest with
        | ':' :: rest2 =>
          match parseJsonVal fuel rest2 with
          | none => none
          | some (v, rest3) =>
            match skipWs rest3 with
            | ',' :: rest4 => (parseJsonMembers fuel rest4).map fun r => ((k, v) :: r.1, r.2)
            | b :: rest4 =>
              if b = Char.ofNat 125 then some ([(k, v)], rest4) else none
            | [] => none
        | _ => none
    | _ => none

end

/-- `JSON.parse(body)`: `none` models a thrown `SyntaxError`. -/
def jsonParse (body : List Char) : Option Json :=
  match parseJsonVal (2 * body.length + 2) body with
  | none => none
  | some (j, rest) => if skipWs rest = [] then some j else none

/-- Object member lookup as `JSON.parse` exposes it: the LAST duplicate of
a key wins. -/
def jgetLast (k : List Char) : List (List Char × Json) → Option Json
  | [] => none
  | (k0, v) :: rest =>
    match jgetLast k rest with
    | some r => some r
    | none => if k0 = k then some v else none

/-- `j.k` property access on a parsed JSON value: `none` is JS `undefined`
(non-objects have none of the properties these scripts read). -/
def jfield (j : Json) (k : List Char) : Option Json :=
  match j with
  | .obj fs => jgetLast k fs
  | _ => none

/-- JS truthiness of a parsed JSON value.  A number is falsy exactly when
its mantissa digits are all zero. -/
def jsTruthy (j : Json) : Bool :=
  match j with
  | .null => false
  | .bool b => b
  | .str s => ¬ s = []
  | .num raw =>
    (raw.takeWhile fun c => ¬ (c = 'e' ∨ c = 'E')).any fun c => '1' ≤ c ∧ c ≤ '9'
  | .arr _ => true
  | .obj _ => true

mutual

/-- JS string coercion of a parsed JSON value (`"" + v`, `textContent = v`):
faithful for the primitive cases the scripts exercise; `Array.prototype.
toString` nuances for `null`/`undefined` elements and exotic number
formatting are approximated by the raw token. -/
def jsToStrVal : Json → List Char
  | .null => "null".data
  | .bool true => "true".data
  | .bool false => "false".data
  | .str s => s
  | .num raw => raw
  | .arr xs => jsToStrElems xs
  | .obj _ => "[object Object]".data

def jsToStrElems : List Json → List Char
  | [] => []
  | [x] => jsToStrVal x
  | x :: y :: xs => jsToStrVal x ++ ',' :: jsToStrElems (y :: xs)

end

/-- String coercion of a possibly-`undefined` value (string concatenation
with `undefined` yields the text `undefined`). -/
def jsToStr (o : Option Json) : List Char :=
  match o with
  | none => "undefined".data
  | some j => jsToStrVal j

/-! ## Bang resolver (`results.js` lines 35-64, duplicated in `videos.js`)

`matchBang(query)` matches the query against `/^!([a-zA-Z]+)(?:\s(.*))?$/`,
looks the trigger up in the global `bangs` table (an external data file, so
the table is a parameter here), and navigates.  `some target` models
"returned `true` after assigning `window.location.href = target`";
`none` models "returned `false`, no navigation". -/

/-- One entry of the bang table: `{t: trigger, d: domain, u: urlTemplate}`. -/
structure Bang where
  t : List Char
  d : List Char
  u : List Char
deriving DecidableEq

/-- The substitution placeholder in a bang URL template,
the seven characters brace-brace-brace-s-brace-brace-brace. -/
def placeholder : List Char :=
  [Char.ofNat 123, Char.ofNat 123, Char.ofNat 123, 's',
   Char.ofNat 125, Char.ofNat 125, Char.ofNat 125]

/-- Operational model of matching `/^!([a-zA-Z]+)(?:\s(.*))?$/`: `some
(trigger, remainder)` with the remainder empty when the optional group does
not participate.  Without the `s` flag `.` excludes line terminators and
without `m` the `$` anchor is the true end of input, so a remainder
containing a line terminator makes the whole match fail. -/
def parseBang (q : List Char) : Option (List Char × List Char) :=
  match q with
  | '!' :: rest =>
    let trigger := rest.takeWhile isAsciiLetter
    let after := rest.dropWhile isAsciiLetter
    if trigger = [] then none
    else
      match after with
      | [] => some (trigger, [])
      | c :: tail =>
        if isJsWhitespace c ∧ tail.all fun d => ¬ isLineTerminator d then
          some (trigger, tail)
        else none
  | _ => none

/-- `matchBang(query)`.  The table lookup is `bangs.find(item => item.t ===
cmd)` -- case-sensitive, first match. -/
def matchBang (bangs : List Bang) (q : List Char) : Option (List Char) :=
  match parseBang q with
  | none => none
  | some (cmd, search) =>
    match bangs.find? fun item => item.t = cmd with
    | none => none
    | some result =>
      if search = [] then some ("https://".data ++ result.d)
      else some (replaceFirst placeholder (encodeURIComponent search) result.u)

/-- `handleSearch(e)` on a search box containing `input`: trim, then either
a bang navigation or a navigation to `?q=` plus the encoded query.  `none`
models "no navigation" (empty input). -/
def handleSearch (bangs : List Bang) (input : List Char) : Option (List Char) :=
  let query := jsTrim input
  if query = [] then none
  else
    match matchBang bangs query with
    | some target => some target
    | none => some ("?q=".data ++ encodeURIComponent query)

/-- The bang entry of the specification scenario:
`{trigger: "gh", urlTemplate: "https://github.com/search?q=" ++
placeholder}`. -/
def ghEntry : Bang :=
  ⟨"gh".data, "github.com".data, "https://github.com/search?q=".data ++ placeholder⟩

def demoBangs : List Bang := [ghEntry]

/-! ## `results.js` module-level page state (lines 1-8)

`window.location.search` is modelled by the parsed parameter list
`search : Params`. -/

def qKey : List Char := "q".data
def safeKey : List Char := "safe".data
def failedKey : List Char := "failed".data
def pageKey : List Char := "page".data
def langKey : List Char := "lang".data
def engineKey : List Char := "engine".data

/-- `const safeSearch = urlParams.get('safe') || "strict";` -/
def safeSearchOf (search : Params) : List Char :=
  jsOr (getFirst safeKey search) ("strict".data)

/-- `const query = urlParams.get('q');` (`none` is JS `null`). -/
def queryOf' (search : Params) : Option (List Char) := getFirst qKey search

/-- `const failed = urlParams.get('failed') || "false";` -/
def failedOf (search : Params) : List Char :=
  jsOr (getFirst failedKey search) ("false".data)

/-- `const encodedQuery = encodeURIComponent(query);` (a `null` query is
coerced to the text `null`). -/
def encodedQueryOf (search : Params) : List Char :=
  encodeURIComponent (jsStringOrNull (queryOf' search))

/-- `const page = parseInt(urlParams.get('page') || "0");` (`none` = NaN). -/
def pageOf (search : Params) : Option Int :=
  parseIntJs (jsOr (getFirst pageKey search) ("0".data))

/-- `const language = urlParams.get('lang') || "en-GB";` -/
def languageOf (search : Params) : List Char :=
  jsOr (getFirst langKey search) ("en-GB".data)

/-- `const engine = urlParams.get('engine') || "duckduckgo";` -/
def engineOf (search : Params) : List Char :=
  jsOr (getFirst engineKey search) ("duckduckgo".data)

/-- The backend request URL built in the web IIFE (lines 109-110):
`".../api/search?q=" + encodedQuery + "&safe=" + safeSearch + "&page=" +
page + "&language=" + language + "&engine=" + engine`. -/
def webRequestUrl (search : Params) : List Char :=
  "https://unmappedstack.pythonanywhere.com/api/search?q=".data ++
    encodedQueryOf search ++
    "&safe=".data ++ safeSearchOf search ++
    "&page=".data ++ jsNumStr (pageOf search) ++
    "&language=".data ++ languageOf search ++
    "&engine=".data ++ engineOf search

/-! ## Web result rendering (`results.js` lines 112-238) -/

/-- `'<p>There was an error, please try again: noquery</p>'` -/
def noqueryHtml : List Char :=
  "<p>There was an error, please try again: noquery</p>".data

/-- The rate-limit fallback of the `failed == "true"` branch (line 117),
with the encoded query interpolated into the DuckDuckGo link. -/
def rateLimitHtml (query : Option (List Char)) : List Char :=
  ("<h1>Woah!</h1><p>nilch has been getting unexpected amounts of traffic, " ++
   "thousands of searches within an hour or two! Unfortunately, this means " ++
   "API limits have been surpassed. <br><br><b>This should be fixed within " ++
   "one day</b>.</p><br><a href=\x27https://duckduckgo.com/").data ++
  encodeURIComponent (jsStringOrNull query) ++
  ("\x27>Search the same query on DuckDuckGo</a> until then?").data

/-- Empty-result-list message (line 131). -/
def emptyStateHtml : List Char :=
  "There weren\x27t any results found! Maybe try switching to another engine?".data

/-- The error classes that reach the `catch` handler, which renders
`'<p>Error loading search results. Please try again.<br>' + error + '</p>'`
(the browser-produced error text is not modelled, only which failure
occurred). -/
inductive JsErr
  | syntaxError
  | typeError
deriving DecidableEq

/-- A raw web result item as the render loop reads it:
the three string fields it indexes unconditionally plus the optional
`page_age`. -/
structure WebItem where
  title : List Char
  href : List Char
  body : List Char
  pageAge : Option (List Char)
deriving DecidableEq

/-- The DOM produced for one web result. -/
structure WebCard where
  titleText : List Char
  linkHref : List Char
  faviconSrc : List Char
  urlText : List Char
  snippetHtml : List Char
  dateText : Option (List Char)
deriving DecidableEq

/-- The truncation applied to titles (limit 60) and snippets (limit 300):
`raw.length > limit ? raw.slice(0, limit) + "..." : raw`. -/
def truncateWithEllipsis (limit : Nat) (s : List Char) : List Char :=
  if limit < s.length then s.take limit ++ "...".data else s

/-- ASCII lower-casing, as applied to URL hostnames. -/
def asciiLower (c : Char) : Char :=
  if 'A' ≤ c ∧ c ≤ 'Z' then Char.ofNat (c.toNat + 32) else c

/-- `new URL(href).hostname`, simplified: require a `://` scheme separator,
take the authority up to the first `/ ? # :` and lower-case it; `none`
models the `TypeError` thrown for inputs without a scheme or host
(user-info and non-special-scheme edge cases are out of the scope of any
input this development evaluates). -/
def hostnameOf (url : List Char) : Option (List Char) :=
  match afterSchemeSep url with
  | none => none
  | some rest =>
    let host := rest.takeWhile fun c => ¬ (c = '/' ∨ c = '?' ∨ c = '#' ∨ c = ':')
    if host = [] then none else some (host.map asciiLower)
where
  afterSchemeSep : List Char → Option (List Char)
    | ':' :: '/' :: '/' :: rest => some rest
    | _ :: rest => afterSchemeSep rest
    | [] => none

/-- The body of the render loop (lines 134-179) for one item: `none` models
the `TypeError` thrown by `new URL` on an unparseable `href`, which aborts
the whole loop into the `catch` handler. -/
def renderWebItem (it : WebItem) : Option WebCard :=
  match hostnameOf it.href with
  | none => none
  | some host =>
    some
      { titleText := truncateWithEllipsis 60 it.title
        linkHref := it.href
        faviconSrc := "https://icons.duckduckgo.com/ip3/".data ++ host ++ ".ico".data
        urlText := it.href
        snippetHtml := truncateWithEllipsis 300 it.body
        dateText :=
          match it.pageAge with
          | some pa =>
            if pa = [] then none
            else some ("PUBLISHED ".data ++ pa.takeWhile fun c => ¬ c = 'T')
          | none => none }

/-- Sequential rendering of the item list; a failing item aborts the rest
(the `catch` then replaces the whole container). -/
def renderItems : List WebItem → Option (List WebCard)
  | [] => some []
  | it :: rest =>
    match renderWebItem it with
    | none => none
    | some c =>
      match renderItems rest with
      | none => none
      | some cs => some (c :: cs)

/-! ## Pagination (`results.js` lines 82-104 and `videos.js` lines 63-83) -/

/-- One link of the web pagination strip.  Its `href` is `"?" +
url.toString()` for the parameter list held in `params`; the claims are
stated at the parameter level, so the `x-www-form-urlencoded`
re-serialization is not modelled. -/
structure PagLinkW where
  params : Params
  label : List Char
  active : Bool
deriving DecidableEq

/-- Link `i` of `results.js`'s `createPagination`: a fresh
`URLSearchParams(window.location.search)` with `page` set to `i`;
active exactly when `i === currentPage`. -/
def webPagLink (search : Params) (currentPage : Option Int) (i : Nat) : PagLinkW :=
  { params := setParam pageKey (natToStr i) search
    label := natToStr (i + 1)
    active := currentPage = some (i : Int) }

/-- `createPagination(totalPages = 9, currentPage = page)` in `results.js`:
links for `i = 0 .. totalPages` inclusive. -/
def webCreatePagination (search : Params) (totalPages : Nat)
    (currentPage : Option Int) : List PagLinkW :=
  (List.range (totalPages + 1)).map (webPagLink search currentPage)

/-- One link of the video pagination strip; here the target is a raw URL
string. -/
structure PagLinkV where
  target : List Char
  label : List Char
  active : Bool
deriving DecidableEq

/-- Link `i` of `videos.js`'s `createPagination`:
`a.href = window.location.href + "&page=" + i` -- the full current URL with
another `page` parameter appended, nothing overridden. -/
def videosPagLink (href0 : List Char) (currentPage : Option Int) (i : Nat) : PagLinkV :=
  { target := href0 ++ "&page=".data ++ natToStr i
    label := natToStr (i + 1)
    active := currentPage = some (i : Int) }

/-- `createPagination(totalPages = 9, currentPage = page)` in `videos.js`. -/
def videosCreatePagination (href0 : List Char) (totalPages : Nat)
    (currentPage : Option Int) : List PagLinkV :=
  (List.range (totalPages + 1)).map (videosPagLink href0 currentPage)

/-! ## Structured payload decoding and the web IIFE -/

/-- The `infobox` field of the parsed payload, keeping apart the
representations the coercion on line 126 distinguishes. -/
inductive InfoboxField
  | absent
  | jsNull
  | strNull
  | val (j : Json)

/-- `(resultsData.infobox == "null") ? null : resultsData.infobox`: `none`
is the resulting `null`/`undefined`, `some j` any other value. -/
def coerceInfobox : InfoboxField → Option Json
  | .absent => none
  | .jsNull => none
  | .strNull => none
  | .val j => some j

structure Payload where
  results : List WebItem
  infobox : InfoboxField

/-- Decode one element of `resultsData.results` into the fields the loop
reads.  `none` models the `TypeError` the loop would throw on it
(`rawTitle.length` etc. on a non-string); a present non-string `page_age`
is also rejected (`.split` on a non-string throws). -/
def decodeItem (j : Json) : Option WebItem :=
  match jfield j ("title".data), jfield j ("href".data), jfield j ("body".data) with
  | some (.str t), some (.str h), some (.str b) =>
    match jfield j ("page_age".data) with
    | none => some ⟨t, h, b, none⟩
    | some .null => some ⟨t, h, b, none⟩
    | some (.str pa) => some ⟨t, h, b, some pa⟩
    | some _ => none
  | _, _, _ => none

def decodeItems : List Json → Option (List WebItem)
  | [] => some []
  | j :: rest =>
    match decodeItem j with
    | none => none
    | some it =>
      match decodeItems rest with
      | none => none
      | some its => some (it :: its)

/-- Classify the payload's `infobox` member. -/
def decodeInfobox (j : Json) : InfoboxField :=
  match jfield j ("infobox".data) with
  | none => .absent
  | some .null => .jsNull
  | some (.str s) => if s = "null".data then .strNull else .val (.str s)
  | some v => .val v

/-- Decode `JSON.parse`'s result into the payload the rest of the IIFE
consumes; `none` models a `TypeError` thrown while the loop reads it
(`results` missing or not an array, or a malformed item). -/
def decodePayload (j : Json) : Option Payload :=
  match jfield j ("results".data) with
  | some (.arr xs) =>
    match decodeItems xs with
    | none => none
    | some its => some ⟨its, decodeInfobox j⟩
  | _ => none

/-- The infobox templates of lines 186-232, with the strings the code
concatenates into `innerHTML`; `unrecognized` is a truthy infobox whose
`infotype` matches no branch (the container is still shown, empty). -/
inductive InfoboxRender
  | calc (label : List Char) (answer : List Char)
  | definition (word : List Char) (partOfSpeech : List Char)
      (definitionHtml : List Char) (url : List Char)
  | wikipedia (title : List Char) (info : List Char) (url : List Char)
  | unrecognized

/-- `infoboxData.infotype` compared against the three known tags. -/
def infotypeOf (j : Json) : Option (List Char) :=
  match jfield j ("infotype".data) with
  | some (.str s) => some s
  | _ => none

def renderInfobox (j : Json) : InfoboxRender :=
  if infotypeOf j = some ("calc".data) then
    .calc (jsToStr (jfield j ("equ".data)) ++ " =".data)
      ("<h2>".data ++ jsToStr (jfield j ("result".data)) ++ "</h2>".data)
  else if infotypeOf j = some ("definition".data) then
    .definition ("<h2>".data ++ jsToStr (jfield j ("word".data)) ++ "</h2>".data)
      (jsToStr (jfield j ("type".data)))
      (jsToStr (jfield j ("definition".data)))
      (jsToStr (jfield j ("url".data)))
  else if infotypeOf j = some ("wikipedia".data) then
    .wikipedia (jsToStr (jfield j ("title".data)))
      (jsToStr (jfield j ("info".data)))
      (jsToStr (jfield j ("url".data)))
  else .unrecognized

/-- What ends up in the `#results` container. -/
inductive ResultsView
  | message (html : List Char)
  | catchMsg (e : JsErr)
  | cards (cs : List WebCard)

/-- The final rendered state of the web page: the results container, the
pagination strip (when created), and the infobox container
(`infoboxShown = false` means `#infobox` keeps its initial hidden style --
`infobox.style.display = "block"` never ran). -/
structure WebView where
  resultsView : ResultsView
  pagination : Option (List PagLinkW)
  infoboxShown : Bool
  infoboxContent : Option InfoboxRender

/-- A full run of the web IIFE: the navigations performed
(`window.location.href` targets -- note the broken retry assignment never
adds one) and the rendered view. -/
structure WebRun where
  navs : List (List Char)
  view : WebView

/-- Lines 124-233: parse the response text and render.  The empty-result
branch returns before `createPagination` and before the infobox block. -/
def renderPayloadView (search : Params) (pl : Payload) : WebView :=
  if pl.results = [] then ⟨.message emptyStateHtml, none, false, none⟩
  else
    match renderItems pl.results with
    | none => ⟨.catchMsg .typeError, none, false, none⟩
    | some cards =>
      let pag := webCreatePagination search 9 (pageOf search)
      match coerceInfobox pl.infobox with
      | none => ⟨.cards cards, some pag, false, none⟩
      | some j =>
        if jsTruthy j then ⟨.cards cards, some pag, true, some (renderInfobox j)⟩
        else ⟨.cards cards, some pag, false, none⟩

/-- `JSON.parse(resultsResponse)` and everything after it. -/
def webParsePhase (search : Params) (body : List Char) : WebView :=
  match jsonParse body with
  | none => ⟨.catchMsg .syntaxError, none, false, none⟩
  | some j =>
    match decodePayload j with
    | none => ⟨.catchMsg .typeError, none, false, none⟩
    | some pl => renderPayloadView search pl

/-- The web IIFE (lines 107-238) applied to the backend response text.
In the `noresults`/not-yet-failed branch the code executes
`window.location.url = window.location.url + "&failed=true"`: `Location`
has no `url` member, so the statement only creates an inert expando
property -- no navigation happens and control falls through to
`JSON.parse(resultsResponse)` with the sentinel text, which throws. -/
def webMain (search : Params) (body : List Char) : WebRun :=
  if body = "noquery".data then ⟨[], ⟨.message noqueryHtml, none, false, none⟩⟩
  else if body = "noresults".data then
    if failedOf search = "true".data then
      ⟨[], ⟨.message (rateLimitHtml (queryOf' search)), none, false, none⟩⟩
    else
      -- broken retry assignment: no navigation recorded, fall through
      ⟨[], webParsePhase search body⟩
  else ⟨[], webParsePhase search body⟩

/-! ## Image modality (second script bundled in `results.js`, lines 281-398
of the source file; the IIFE is lines 337-374) -/

/-- `'<p>There was an error, please try again: noresults</p>'` -- the image
page's direct rendering for the `noresults` sentinel (line 346); there is
no retry tier and the IIFE performs no navigation on any path. -/
def imgNoresultsHtml : List Char :=
  "<p>There was an error, please try again: noresults</p>".data

/-- What the image IIFE leaves in its containers. -/
inductive ImageView
  | message (html : List Char)
  | catchMsg
  | cards (srcs : List (List Char))

/-- `searchResults[result].image` as assigned to `img.src` (reflected DOM
attributes stringify `null`/`undefined`). -/
def imageSrcOf (j : Json) : List Char :=
  jsToStr (jfield j ("image".data))

/-- The image IIFE applied to the backend response text.  A parsed non-array
payload has no usable `length`, so the `for` loop body never runs (for a
string payload, indexing yields one-character strings whose `.image` is
`undefined`).  The per-image `onerror` removal is a browser-side load
effect, outside this model. -/
def imageMain (body : List Char) : ImageView :=
  if body = "noquery".data then .message noqueryHtml
  else if body = "noresults".data then .message imgNoresultsHtml
  else
    match jsonParse body with
    | none => .catchMsg
    | some (.arr xs) => .cards (xs.map imageSrcOf)
    | some (.str s) => .cards (s.map fun _ => "undefined".data)
    | some _ => .cards []

/-! ## Video modality (`videos.js`) -/

/-- The `images` member of one video result, keeping apart the cases line
110 (`video.images.large`) distinguishes: reading `.large` off a missing or
`null` member throws; off any other non-object it is `undefined`. -/
inductive ImagesField
  | missing
  | nullVal
  | objVal (large : Option (List Char))
  | primitive
deriving DecidableEq

/-- One element of the video `results` array, as the `forEach` body reads
it.  Optional text fields hold `some s` exactly when the member is truthy
(so present-but-empty behaves like absent, as `||` makes it). -/
structure VideoItem where
  content : Option (List Char)
  title : Option (List Char)
  uploader : Option (List Char)
  publisher : Option (List Char)
  images : ImagesField
deriving DecidableEq

/-- A truthy member coerced to a string, `none` otherwise (the shape every
`video.x || fallback` read has). -/
def truthyStrField (j : Json) (k : List Char) : Option (List Char) :=
  match jfield j k with
  | none => none
  | some v => if jsTruthy v then some (jsToStrVal v) else none

def imagesFieldOf (j : Json) : ImagesField :=
  match jfield j ("images".data) with
  | none => .missing
  | some .null => .nullVal
  | some (.obj gs) =>
    .objVal
      (match jgetLast ("large".data) gs with
       | some v => if jsTruthy v then some (jsToStrVal v) else none
       | none => none)
  | some _ => .primitive

/-- Read the fields of one `results` element.  A `null` element throws on
its first member access; so does a missing/`null` `images` member at
`video.images.large` -- both surface as `buildVideoCard = none` below. -/
def toVideoItem (j : Json) : VideoItem :=
  { content := truthyStrField j ("content".data)
    title := truthyStrField j ("title".data)
    uploader := truthyStrField j ("uploader".data)
    publisher := truthyStrField j ("publisher".data)
    images := imagesFieldOf j }

/-- The generated placeholder thumbnail (lines 112-116): the `data:` URL
with the percent-encoded inline SVG template literal, newlines and
indentation included. -/
def videoPlaceholderThumb : List Char :=
  "data:image/svg+xml;charset=UTF-8,".data ++
    encodeURIComponent
      (("<svg width=\x27160\x27 height=\x2790\x27 xmlns=\x27http://www.w3.org/2000/svg\x27>\n" ++
        "                      <rect width=\x27160\x27 height=\x2790\x27 fill=\x27#333\x27/>\n" ++
        "                      <text x=\x2750%\x27 y=\x2750%\x27 fill=\x27#aaa\x27 " ++
        "font-size=\x2714\x27 text-anchor=\x27middle\x27 dy=\x27.3em\x27>No Thumbnail</text>\n" ++
        "                   </svg>").data)

/-- The DOM card built for one video result. -/
structure VideoCard where
  href : List Char
  thumbSrc : List Char
  titleText : List Char
  metaText : List Char
deriving DecidableEq

/-- The `forEach` body (lines 103-144) for one item; `none` models the
`TypeError` thrown at `video.images.large` when `images` is missing or
`null`, which aborts the loop into the `catch` handler. -/
def buildVideoCard (v : VideoItem) : Option VideoCard :=
  match v.images with
  | .missing => none
  | .nullVal => none
  | imgs =>
    let large := match imgs with
      | .objVal l => l
      | _ => none
    some
      { href := jsOr v.content ("#".data)
        thumbSrc :=
          match large with
          | some s => s          -- truthy by construction of `VideoItem`
          | none => videoPlaceholderThumb
        titleText := jsOr v.title ("Untitled Video".data)
        metaText :=
          jsOr v.uploader ("Unknown Creator".data) ++ " • ".data ++
            jsOr v.publisher ("Unknown Platform".data) }

/-- Sequential card construction: the cards appended to `#videoResults`
before any throw, and whether a throw happened.  Items after a throwing one
never render. -/
def renderVideoList : List VideoItem → List VideoCard × Bool
  | [] => ([], false)
  | v :: rest =>
    match buildVideoCard v with
    | none => ([], true)
    | some c =>
      let r := renderVideoList rest
      (c :: r.1, r.2)

/-- A message written to the `#results` element of the video page (distinct
from the `#videoResults` container the cards go into). -/
inductive VideoMsg
  | noquery
  | catchMsg
deriving DecidableEq

/-- The rendered state of the video page. -/
structure VideoView where
  resultsMsg : Option VideoMsg
  cards : List VideoCard
  pagination : Option (List PagLinkV)

/-- A run of the video IIFE: whether `document.location.reload()` was
called (the page's only navigation effect -- there is no retry marker
anywhere in `videos.js`), plus the rendered view. -/
structure VideoRun where
  reload : Bool
  view : VideoView

/-- The rendering phase after a successful parse: build cards; on a throw
the `catch` handler replaces `#results` with the generic error message and
`createPagination` never runs. -/
def renderVideoPayload (href0 : List Char) (search : Params)
    (items : List VideoItem) : VideoView :=
  let r := renderVideoList items
  if r.2 then ⟨some .catchMsg, r.1, none⟩
  else ⟨none, r.1, some (videosCreatePagination href0 9 (pageOf search))⟩

/-- `JSON.parse(resultsResponse).results` and the `forEach` over it; a
missing or non-array `results` throws at `.forEach`. -/
def videoParsePhase (href0 : List Char) (search : Params)
    (body : List Char) : VideoView :=
  match jsonParse body with
  | none => ⟨some .catchMsg, [], none⟩
  | some j =>
    match jfield j ("results".data) with
    | some (.arr xs) => renderVideoPayload href0 search (xs.map toVideoItem)
    | _ => ⟨some .catchMsg, [], none⟩

/-- The video IIFE (lines 86-150).  On the `noresults` sentinel it calls
`document.location.reload()` unconditionally -- no marker is checked or
set -- and, having no `return`, falls through to `JSON.parse` of the
sentinel text, which throws into the `catch` while the reload is pending. -/
def videoMain (href0 : List Char) (search : Params) (body : List Char) : VideoRun :=
  if body = "noquery".data then ⟨false, ⟨some .noquery, [], none⟩⟩
  else
    ⟨body = "noresults".data, videoParsePhase href0 search body⟩

/-- The video-page URL used to exhibit the pagination counterexample: a
current location whose query string already carries a `page` parameter
(exactly what every link of a previous pagination strip produces). -/
def exVideoHref : List Char := "https://nilch.org/videos.html?q=x&page=2".data

/-! ## Concrete inputs used by witnesses -/

/-- The boundary item used to witness C4: a 61-character title and a
301-character body (with a parseable `href`). -/
def boundaryItem : WebItem :=
  ⟨List.replicate 61 'a', "https://example.com/x".data, List.replicate 301 'b', none⟩

/-- A minimal parameter list (`?q=x`) for the pagination witness. -/
def exSearchW : Params := [(qKey, "x".data)]

/-- A video item with every optional field missing but a well-formed
(empty) `images` object. -/
def exVideoItem : VideoItem := ⟨none, none, none, none, .objVal none⟩

/-- A video item whose `images` member is missing altogether. -/
def exBadVideoItem : VideoItem := ⟨none, none, none, none, .missing⟩

/-- The card `exVideoItem` renders to: every documented fallback. -/
def exVideoCard : VideoCard :=
  ⟨"#".data, videoPlaceholderThumb, "Untitled Video".data,
   "Unknown Creator • Unknown Platform".data⟩

/-! ## Helper lemmas -/

theorem leadsWith_append_self : ∀ (l t : List Char), leadsWith l (l ++ t) = true
  | [], _ => rfl
  | a :: as, t => by simp [leadsWith, leadsWith_append_self as t]

/-- Unfolding equation for `replaceFirst` on a nonempty input. -/
theorem replaceFirst_cons (pat repl : List Char) (c : Char) (cs : List Char) :
    replaceFirst pat repl (c :: cs) =
      if leadsWith pat (c :: cs) then repl ++ List.drop pat.length (c :: cs)
      else c :: replaceFirst pat repl cs := rfl

/-- `replaceFirst` rewrites exactly the occurrence at the split point when
no earlier position starts an occurrence of the pattern. -/
theorem replaceFirst_at_first (pat repl post : List Char) (hpat : ¬ pat = []) :
    ∀ pre : List Char,
      (∀ i, i < pre.length → leadsWith pat (List.drop i (pre ++ pat ++ post)) = false) →
      replaceFirst pat repl (pre ++ pat ++ post) = pre ++ repl ++ post := by
  obtain ⟨p0, pr, rfl⟩ : ∃ p0 pr, pat = p0 :: pr := by
    cases pat with
    | nil => exact absurd rfl hpat
    | cons a l => exact ⟨a, l, rfl⟩
  intro pre
  induction pre with
  | nil =>
    intro _
    simp only [List.nil_append, List.cons_append, replaceFirst_cons]
    have hl := leadsWith_append_self (p0 :: pr) post
    rw [List.cons_append] at hl
    rw [hl]
    simp only [if_true, List.length_cons, List.drop_succ_cons]
    rw [List.drop_left]
  | cons a pre ih =>
    intro h
    have h0 : leadsWith (p0 :: pr) (a :: (pre ++ (p0 :: pr) ++ post)) = false := by
      have := h 0 (by simp)
      simpa using this
    have hrest : ∀ i, i < pre.length →
        leadsWith (p0 :: pr) (List.drop i (pre ++ (p0 :: pr) ++ post)) = false := by
      intro i hi
      have := h (i + 1) (by simpa using Nat.succ_lt_succ hi)
      simpa using this
    simp only [List.cons_append, replaceFirst_cons]
    rw [h0]
    simp only [Bool.false_eq_true, if_false]
    rw [ih hrest]

theorem getFirst_setParam_self (k v : List Char) :
    ∀ ps : Params, getFirst k (setParam k v ps) = some v := by
  intro ps
  induction ps with
  | nil => simp [setParam, getFirst]
  | cons p rest ih =>
    by_cases hk : p.1 = k
    · simp [setParam, hk, getFirst]
    · simp [setParam, hk, getFirst, ih]

theorem getFirst_removeKey (k k' : List Char) (hne : ¬ k' = k) :
    ∀ ps : Params, getFirst k' (removeKey k ps) = getFirst k' ps := by
  intro ps
  induction ps with
  | nil => rfl
  | cons p rest ih =>
    have hkk' : ¬ k = k' := fun h => hne h.symm
    by_cases hk : p.1 = k
    · have hpk' : ¬ p.1 = k' := fun hcontra => hne (hcontra ▸ hk)
      simp [removeKey, hk, getFirst, hpk', hkk', ih]
    · by_cases hk' : p.1 = k'
      · simp [removeKey, hk, getFirst, hk', hne]
      · simp [removeKey, hk, getFirst, hk', hne, ih]

theorem getFirst_setParam_other (k k' v : List Char) (hne : ¬ k' = k) :
    ∀ ps : Params, getFirst k' (setParam k v ps) = getFirst k' ps := by
  intro ps
  induction ps with
  | nil =>
    have : ¬ k = k' := fun h => hne h.symm
    simp [setParam, getFirst, this]
  | cons p rest ih =>
    by_cases hk : p.1 = k
    · have hkk' : ¬ k = k' := fun h => hne h.symm
      have hpk' : ¬ p.1 = k' := fun hcontra => hne (hcontra ▸ hk)
      simp [setParam, hk, getFirst, hkk', hpk', getFirst_removeKey k k' hne rest]
    · by_cases hk' : p.1 = k'
      · simp [setParam, hk, getFirst, hk', hne]
      · simp [setParam, hk, getFirst, hk', hne, ih]

/-- Unfolding equation for `renderVideoList` on a nonempty list. -/
theorem renderVideoList_cons (v : VideoItem) (l : List VideoItem) :
    renderVideoList (v :: l) =
      (match buildVideoCard v with
       | none => ([], true)
       | some c => ((c :: (renderVideoList l).1, (renderVideoList l).2) :
           List VideoCard × Bool)) := rfl

/-- Items before a throwing item render and stay; the throw discards
everything after it. -/
theorem renderVideoList_append_throw (bad : VideoItem) (hbad : buildVideoCard bad = none)
    (post : List VideoItem) :
    ∀ (pre : List VideoItem) (cs : List VideoCard),
      renderVideoList pre = (cs, false) →
      renderVideoList (pre ++ bad :: post) = (cs, true) := by
  intro pre
  induction pre with
  | nil =>
    intro cs hpre
    have hcs : cs = [] := by
      simpa [renderVideoList] using congrArg Prod.fst hpre.symm
    subst hcs
    simp [renderVideoList, hbad]
  | cons v rest ih =>
    intro cs hpre
    rw [renderVideoList_cons] at hpre
    cases hv : buildVideoCard v with
    | none =>
      rw [hv] at hpre
      exact absurd (congrArg Prod.snd hpre) (by simp)
    | some c =>
      rw [hv] at hpre
      have hsnd : (renderVideoList rest).2 = false := by
        have := congrArg Prod.snd hpre
        simpa using this
      have hfst : cs = c :: (renderVideoList rest).1 := by
        have := congrArg Prod.fst hpre
        simpa using this.symm
      subst hfst
      have hrest : renderVideoList rest = ((renderVideoList rest).1, false) := by
        rw [← hsnd]
      rw [List.cons_append, renderVideoList_cons, hv,
        ih (renderVideoList rest).1 hrest]

/-! ## Claim theorems -/

/-- Claim C1: for every query matching the bang grammar with a non-empty
remainder, whose trigger is found (case-sensitively) in the bang table and
whose URL template contains the placeholder (at the split `pre ++
placeholder ++ post`, with no earlier occurrence -- the table invariant is
exactly one placeholder), bang resolution redirects to the template with
the placeholder replaced by the percent-encoded remainder; in particular
`!gh nilch` against the `gh` entry redirects to
`https://github.com/search?q=nilch`. -/
theorem bang_query_substitution (bangs : List Bang) (q trigger remainder : List Char)
    (entry : Bang) (pre post : List Char)
    (hq : parseBang q = some (trigger, remainder))
    (hne : ¬ remainder = [])
    (hfind : bangs.find? (fun item => item.t = trigger) = some entry)
    (hu : entry.u = pre ++ placeholder ++ post)
    (hfirst : ∀ i, i < pre.length → leadsWith placeholder (List.drop i entry.u) = false) :
    matchBang bangs q = some (pre ++ encodeURIComponent remainder ++ post) ∧
    matchBang demoBangs ("!gh nilch".data) =
      some ("https://github.com/search?q=nilch".data) := by
  constructor
  · have hmb : matchBang bangs q =
        some (replaceFirst placeholder (encodeURIComponent remainder) entry.u) := by
      simp only [matchBang, hq, hfind]
      simp [hne]
    rw [hu] at hfirst
    rw [hmb, hu,
      replaceFirst_at_first placeholder (encodeURIComponent remainder) post
        (by decide) pre hfirst]
  · rfl

/-- Witness for C1 at the specification scenario: query `!gh nilch`,
table `demoBangs`, template split `https://github.com/search?q=` ++
placeholder ++ []. -/
theorem bang_query_substitution_witness :
    (parseBang ("!gh nilch".data) = some ("gh".data, "nilch".data) ∧
     ¬ ("nilch".data : List Char) = [] ∧
     demoBangs.find? (fun item => item.t = "gh".data) = some ghEntry ∧
     ghEntry.u = "https://github.com/search?q=".data ++ placeholder ++ [] ∧
     (∀ i, i < ("https://github.com/search?q=".data : List Char).length →
        leadsWith placeholder (List.drop i ghEntry.u) = false)) ∧
    (matchBang demoBangs ("!gh nilch".data) =
       some ("https://github.com/search?q=".data ++
         encodeURIComponent ("nilch".data) ++ []) ∧
     matchBang demoBangs ("!gh nilch".data) =
       some ("https://github.com/search?q=nilch".data)) :=
  ⟨⟨by decide, by decide, by decide, by decide, by decide⟩,
   bang_query_substitution demoBangs ("!gh nilch".data) ("gh".data) ("nilch".data)
     ghEntry ("https://github.com/search?q=".data) [] (by decide) (by decide)
     (by decide) (by decide) (by decide)⟩

/-- Claim C7: a query in bang shape whose trigger is not in the table
resolves to no bang (`matchBang` returns `none`, no redirect), and the
search handler then navigates with the ENTIRE original string -- leading
`!` included -- percent-encoded as the literal `q` parameter. -/
theorem unknown_bang_literal_query (bangs : List Bang) (q trigger remainder : List Char)
    (hq : parseBang q = some (trigger, remainder))
    (htrim : jsTrim q = q)
    (hfind : bangs.find? (fun item => item.t = trigger) = none) :
    matchBang bangs q = none ∧
    handleSearch bangs q = some ("?q=".data ++ encodeURIComponent q) := by
  have hmb : matchBang bangs q = none := by
    simp only [matchBang, hq, hfind]
  refine ⟨hmb, ?_⟩
  have hqne : ¬ q = [] := by
    intro hcontra
    rw [hcontra] at hq
    simp [parseBang] at hq
  simp only [handleSearch, htrim]
  simp [hqne, hmb]

/-- Witness for C7: `!zzqq hello` against the table that only knows `gh`. -/
theorem unknown_bang_literal_query_witness :
    (parseBang ("!zzqq hello".data) = some ("zzqq".data, "hello".data) ∧
     jsTrim ("!zzqq hello".data) = "!zzqq hello".data ∧
     demoBangs.find? (fun item => item.t = "zzqq".data) = none) ∧
    (matchBang demoBangs ("!zzqq hello".data) = none ∧
     handleSearch demoBangs ("!zzqq hello".data) =
       some ("?q=".data ++ encodeURIComponent ("!zzqq hello".data))) :=
  ⟨⟨by decide, by decide, by decide⟩,
   unknown_bang_literal_query demoBangs ("!zzqq hello".data) ("zzqq".data)
     ("hello".data) (by decide) (by decide) (by decide)⟩

/-- Claim C2 (code bug): what the code ACTUALLY does on a web `noresults`
response with no retry marker.  The claim (and the clear intent of the
`failed == "true"` branch) is one re-navigation to the same page with
`failed=true` and no message; but the retry statement assigns
`window.location.url` -- not a `Location` property -- so nothing navigates,
control falls through to `JSON.parse("noresults")`, which throws, and the
`catch` handler renders the generic error message.  This theorem evaluates
the embedded code at the failing input: no navigation is recorded and the
catch message is user-visible. -/
theorem web_noresults_no_retry_navigation (search : Params)
    (hfailed : getFirst failedKey search = none) :
    (webMain search ("noresults".data)).navs = [] ∧
    (webMain search ("noresults".data)).view =
      ⟨.catchMsg .syntaxError, none, false, none⟩ := by
  have h1 : failedOf search = "false".data := by
    simp [failedOf, hfailed, jsOr]
  have h2 : webMain search ("noresults".data) =
      ⟨[], webParsePhase search ("noresults".data)⟩ := by
    unfold webMain
    rw [if_neg (by decide), if_pos rfl, h1, if_neg (by decide)]
  have h3 : webParsePhase search ("noresults".data) =
      ⟨.catchMsg .syntaxError, none, false, none⟩ := by
    unfold webParsePhase
    rw [show jsonParse ("noresults".data) = none from rfl]
  rw [h2, h3]
  exact ⟨rfl, rfl⟩

/-- Witness for C2 at a page with only a `q` parameter. -/
theorem web_noresults_no_retry_navigation_witness :
    (getFirst failedKey [(qKey, "x".data)] = none) ∧
    ((webMain [(qKey, "x".data)] ("noresults".data)).navs = [] ∧
     (webMain [(qKey, "x".data)] ("noresults".data)).view =
       ⟨.catchMsg .syntaxError, none, false, none⟩) :=
  ⟨by decide, web_noresults_no_retry_navigation [(qKey, "x".data)] (by decide)⟩

/-- Claim C3: on a web `noresults` response with the retry marker already
set (`failed=true`), the rate-limit fallback message is rendered, it
contains the outbound DuckDuckGo link carrying the same (encoded) query,
and no navigation at all occurs -- terminal state. -/
theorem web_noresults_marker_set_fallback (search : Params)
    (hfailed : getFirst failedKey search = some ("true".data)) :
    (webMain search ("noresults".data)).navs = [] ∧
    (webMain search ("noresults".data)).view.resultsView =
      .message (rateLimitHtml (queryOf' search)) ∧
    ("https://duckduckgo.com/".data ++
       encodeURIComponent (jsStringOrNull (queryOf' search))) <:+:
      rateLimitHtml (queryOf' search) := by
  have h1 : failedOf search = "true".data := by
    simp [failedOf, hfailed, jsOr]
  have h2 : webMain search ("noresults".data) =
      ⟨[], ⟨.message (rateLimitHtml (queryOf' search)), none, false, none⟩⟩ := by
    unfold webMain
    rw [if_neg (by decide), if_pos rfl, h1, if_pos rfl]
  refine ⟨by rw [h2], by rw [h2], ?_⟩
  -- exhibit the split of the message around the link
  refine ⟨("<h1>Woah!</h1><p>nilch has been getting unexpected amounts of traffic, " ++
    "thousands of searches within an hour or two! Unfortunately, this means " ++
    "API limits have been surpassed. <br><br><b>This should be fixed within " ++
    "one day</b>.</p><br><a href=\x27").data,
    ("\x27>Search the same query on DuckDuckGo</a> until then?").data, ?_⟩
  unfold rateLimitHtml
  rw [show ("<h1>Woah!</h1><p>nilch has been getting unexpected amounts of traffic, " ++
    "thousands of searches within an hour or two! Unfortunately, this means " ++
    "API limits have been surpassed. <br><br><b>This should be fixed within " ++
    "one day</b>.</p><br><a href=\x27https://duckduckgo.com/").data =
    ("<h1>Woah!</h1><p>nilch has been getting unexpected amounts of traffic, " ++
    "thousands of searches within an hour or two! Unfortunately, this means " ++
    "API limits have been surpassed. <br><br><b>This should be fixed within " ++
    "one day</b>.</p><br><a href=\x27").data ++ "https://duckduckgo.com/".data
    from by decide]
  simp [List.append_assoc]

/-- Witness for C3 at `?q=nilch&failed=true`. -/
theorem web_noresults_marker_set_fallback_witness :
    (getFirst failedKey [(qKey, "nilch".data), (failedKey, "true".data)] =
       some ("true".data)) ∧
    ((webMain [(qKey, "nilch".data), (failedKey, "true".data)] ("noresults".data)).navs = [] ∧
     (webMain [(qKey, "nilch".data), (failedKey, "true".data)]
         ("noresults".data)).view.resultsView =
       .message (rateLimitHtml (queryOf'
         [(qKey, "nilch".data), (failedKey, "true".data)])) ∧
     ("https://duckduckgo.com/".data ++
        encodeURIComponent (jsStringOrNull (queryOf'
          [(qKey, "nilch".data), (failedKey, "true".data)]))) <:+:
       rateLimitHtml (queryOf' [(qKey, "nilch".data), (failedKey, "true".data)])) :=
  ⟨by decide,
   web_noresults_marker_set_fallback
     [(qKey, "nilch".data), (failedKey, "true".data)] (by decide)⟩

/-- Claim C4: per web item the rendered title is the raw title when its
length is at most 60 and the first 60 characters plus `...` when longer;
independently the rendered snippet keeps the raw body up to 300 characters
and truncates with `...` beyond -- so 60/300 stay unmodified and 61/301
truncate. -/
theorem web_title_body_truncation (it : WebItem) (card : WebCard)
    (h : renderWebItem it = some card) :
    (it.title.length ≤ 60 → card.titleText = it.title) ∧
    (60 < it.title.length → card.titleText = it.title.take 60 ++ "...".data) ∧
    (it.body.length ≤ 300 → card.snippetHtml = it.body) ∧
    (300 < it.body.length → card.snippetHtml = it.body.take 300 ++ "...".data) := by
  have hcard : card.titleText = truncateWithEllipsis 60 it.title ∧
      card.snippetHtml = truncateWithEllipsis 300 it.body := by
    unfold renderWebItem at h
    cases hh : hostnameOf it.href with
    | none => rw [hh] at h; exact absurd h (by simp)
    | some host =>
      rw [hh] at h
      have := Option.some.inj h
      rw [← this]
      exact ⟨rfl, rfl⟩
  refine ⟨fun hle => ?_, fun hgt => ?_, fun hle => ?_, fun hgt => ?_⟩
  · rw [hcard.1, truncateWithEllipsis, if_neg (by omega)]
  · rw [hcard.1, truncateWithEllipsis, if_pos (by omega)]
  · rw [hcard.2, truncateWithEllipsis, if_neg (by omega)]
  · rw [hcard.2, truncateWithEllipsis, if_pos (by omega)]

/-- Witness for C4 at the 61/301 boundary item. -/
theorem web_title_body_truncation_witness :
    (renderWebItem boundaryItem =
       some ⟨List.replicate 60 'a' ++ "...".data, "https://example.com/x".data,
             "https://icons.duckduckgo.com/ip3/example.com.ico".data,
             "https://example.com/x".data,
             List.replicate 300 'b' ++ "...".data, none⟩) ∧
    ((boundaryItem.title.length ≤ 60 →
        (⟨List.replicate 60 'a' ++ "...".data, "https://example.com/x".data,
          "https://icons.duckduckgo.com/ip3/example.com.ico".data,
          "https://example.com/x".data,
          List.replicate 300 'b' ++ "...".data, none⟩ : WebCard).titleText =
          boundaryItem.title) ∧
     (60 < boundaryItem.title.length →
        (⟨List.replicate 60 'a' ++ "...".data, "https://example.com/x".data,
          "https://icons.duckduckgo.com/ip3/example.com.ico".data,
          "https://example.com/x".data,
          List.replicate 300 'b' ++ "...".data, none⟩ : WebCard).titleText =
          boundaryItem.title.take 60 ++ "...".data) ∧
     (boundaryItem.body.length ≤ 300 →
        (⟨List.replicate 60 'a' ++ "...".data, "https://example.com/x".data,
          "https://icons.duckduckgo.com/ip3/example.com.ico".data,
          "https://example.com/x".data,
          List.replicate 300 'b' ++ "...".data, none⟩ : WebCard).snippetHtml =
          boundaryItem.body) ∧
     (300 < boundaryItem.body.length →
        (⟨List.replicate 60 'a' ++ "...".data, "https://example.com/x".data,
          "https://icons.duckduckgo.com/ip3/example.com.ico".data,
          "https://example.com/x".data,
          List.replicate 300 'b' ++ "...".data, none⟩ : WebCard).snippetHtml =
          boundaryItem.body.take 300 ++ "...".data)) :=
  ⟨by decide,
   web_title_body_truncation boundaryItem _ (by decide)⟩

/-- Claim C5, amended.  For every `0 ≤ k ≤ 9`, BOTH pagination renderers
emit exactly 10 links (indices 0..9) with exactly one active link, at index
`k`.  In the web renderer (`results.js`) each link's parameter list
preserves every other current request parameter and overrides only the page
index.  In the video renderer (`videos.js`), however, each link's target is
the whole current URL with `"&page=" ++ i` appended: existing parameters --
including any existing `page` parameter -- are preserved verbatim, so the
page index is effectively overridden only when the current URL carries no
`page` parameter yet (the appended one is second, and `URLSearchParams.get`
returns the first). -/
theorem pagination_links_amended (k : Nat) (hk : k ≤ 9) (search : Params)
    (href0 : List Char) :
    (webCreatePagination search 9 (some (k : Int)) =
       (List.range 10).map (webPagLink search (some (k : Int))) ∧
     (webCreatePagination search 9 (some (k : Int))).length = 10 ∧
     (∀ i : Nat,
        getFirst pageKey (webPagLink search (some (k : Int)) i).params =
          some (natToStr i) ∧
        (∀ key, ¬ key = pageKey →
           getFirst key (webPagLink search (some (k : Int)) i).params =
             getFirst key search) ∧
        ((webPagLink search (some (k : Int)) i).active = true ↔ i = k)) ∧
     (webCreatePagination search 9 (some (k : Int))).countP
       (fun l => l.active) = 1) ∧
    (videosCreatePagination href0 9 (some (k : Int)) =
       (List.range 10).map (videosPagLink href0 (some (k : Int))) ∧
     (videosCreatePagination href0 9 (some (k : Int))).length = 10 ∧
     (∀ i : Nat,
        (videosPagLink href0 (some (k : Int)) i).target =
          href0 ++ "&page=".data ++ natToStr i ∧
        ((videosPagLink href0 (some (k : Int)) i).active = true ↔ i = k)) ∧
     (videosCreatePagination href0 9 (some (k : Int))).countP
       (fun l => l.active) = 1) := by
  have hact : ∀ i : Nat, (decide (some (k : Int) = some (i : Int)) = true ↔ i = k) := by
    intro i
    simp [eq_comm]
  refine ⟨⟨rfl, by simp [webCreatePagination], fun i => ⟨?_, fun key hkey => ?_, ?_⟩, ?_⟩,
          rfl, by simp [videosCreatePagination], fun i => ⟨rfl, ?_⟩, ?_⟩
  · exact getFirst_setParam_self pageKey (natToStr i) search
  · exact getFirst_setParam_other pageKey key (natToStr i) hkey search
  · simpa [webPagLink] using hact i
  · unfold webCreatePagination
    rw [List.countP_map]
    rw [show ((fun l => PagLinkW.active l) ∘ webPagLink search (some (k : Int))) =
      (fun i : Nat => decide (some (k : Int) = some (i : Int))) from rfl]
    interval_cases k <;> decide
  · simpa [videosPagLink] using hact _
  · unfold videosCreatePagination
    rw [List.countP_map]
    rw [show ((fun l => PagLinkV.active l) ∘ videosPagLink href0 (some (k : Int))) =
      (fun i : Nat => decide (some (k : Int) = some (i : Int))) from rfl]
    interval_cases k <;> decide

/-- Witness for C5 at `k = 3`, a `?q=x` web page and the example video
URL. -/
theorem pagination_links_amended_witness :
    3 ≤ 9 ∧
    ((webCreatePagination exSearchW 9 (some (3 : Int)) =
        (List.range 10).map (webPagLink exSearchW (some (3 : Int))) ∧
      (webCreatePagination exSearchW 9 (some (3 : Int))).length = 10 ∧
      (∀ i : Nat,
         getFirst pageKey (webPagLink exSearchW (some (3 : Int)) i).params =
           some (natToStr i) ∧
         (∀ key, ¬ key = pageKey →
            getFirst key (webPagLink exSearchW (some (3 : Int)) i).params =
              getFirst key exSearchW) ∧
         ((webPagLink exSearchW (some (3 : Int)) i).active = true ↔ i = 3)) ∧
      (webCreatePagination exSearchW 9 (some (3 : Int))).countP
        (fun l => l.active) = 1) ∧
     (videosCreatePagination exVideoHref 9 (some (3 : Int)) =
        (List.range 10).map (videosPagLink exVideoHref (some (3 : Int))) ∧
      (videosCreatePagination exVideoHref 9 (some (3 : Int))).length = 10 ∧
      (∀ i : Nat,
         (videosPagLink exVideoHref (some (3 : Int)) i).target =
           exVideoHref ++ "&page=".data ++ natToStr i ∧
         ((videosPagLink exVideoHref (some (3 : Int)) i).active = true ↔ i = 3)) ∧
      (videosCreatePagination exVideoHref 9 (some (3 : Int))).countP
        (fun l => l.active) = 1)) :=
  ⟨by decide, pagination_links_amended 3 (by decide) exSearchW exVideoHref⟩

/-- Counterexample for C5 as frozen: on the video page whose current URL is
`exVideoHref` (it carries `page=2`), the claim says the link at index 5
targets the same request with only the page index overridden to `5`; in
fact the target appends a second `page` parameter, and reading the target's
query string back the way every page of this app reads it
(`URLSearchParams.get`, first occurrence) still yields `page = "2"` -- the
page index is NOT overridden. -/
theorem pagination_video_target_counterexample :
    (videosPagLink exVideoHref (some (2 : Int)) 5).target =
      "https://nilch.org/videos.html?q=x&page=2&page=5".data ∧
    parseQuery (queryOf ((videosPagLink exVideoHref (some (2 : Int)) 5).target)) =
      [(qKey, "x".data), (pageKey, "2".data), (pageKey, "5".data)] ∧
    getFirst pageKey
      (parseQuery (queryOf ((videosPagLink exVideoHref (some (2 : Int)) 5).target))) =
      some ("2".data) ∧
    ¬ ("2".data : List Char) = natToStr 5 := by
  refine ⟨by decide, by decide, by decide, by decide⟩

/-- Claim C6: an `infobox` field holding the literal string `"null"` is
treated exactly like a truly absent one -- the rendered view is identical,
no infobox is rendered and the container stays hidden -- and the payload
`{results: [], infobox: "null"}` renders the empty-state message with the
infobox container still hidden. -/
theorem infobox_null_string_hidden :
    (∀ (search : Params) (rs : List WebItem),
       renderPayloadView search ⟨rs, .strNull⟩ =
         renderPayloadView search ⟨rs, .absent⟩ ∧
       (renderPayloadView search ⟨rs, .strNull⟩).infoboxShown = false) ∧
    (∀ search : Params,
       renderPayloadView search ⟨[], .strNull⟩ =
         ⟨.message emptyStateHtml, none, false, none⟩) := by
  refine ⟨fun search rs => ⟨?_, ?_⟩, fun search => rfl⟩
  · simp [renderPayloadView, coerceInfobox]
  · unfold renderPayloadView
    by_cases hrs : rs = []
    · simp [hrs]
    · simp only [if_neg hrs]
      cases h : renderItems rs <;> simp [h, coerceInfobox]

/-- Claim C8: on the `noresults` sentinel the image page renders its
message directly -- no retry tier, and the image IIFE performs no
navigation on any path -- while the video page calls
`document.location.reload()` on exactly every `noresults` response,
unconditionally; `videos.js` contains no retry/exhaustion marker at all
(its only navigation effect is the bare reload). -/
theorem image_video_noresults_handling :
    imageMain ("noresults".data) = .message imgNoresultsHtml ∧
    (∀ (href0 : List Char) (search : Params) (body : List Char),
       (videoMain href0 search body).reload = true ↔ body = "noresults".data) := by
  refine ⟨rfl, fun href0 search body => ?_⟩
  by_cases hb : body = "noquery".data
  · subst hb
    simp +decide [videoMain]
  · simp [videoMain, hb]

/-- Claim C9: on a web page load with `q` present and the `safe`, `failed`,
`page`, `lang` and `engine` parameters all absent, the derived request
state takes the fixed defaults (`strict`, `false`, `0`, `en-GB`,
`duckduckgo`) and the dispatched backend URL is exactly the search endpoint
with the five parameters `q`, `safe`, `page`, `language`, `engine` at those
values (the `failed` flag is built but never dispatched). -/
theorem web_request_default_parameters (search : Params) (q : List Char)
    (hq : getFirst qKey search = some q)
    (hsafe : getFirst safeKey search = none)
    (hfailed : getFirst failedKey search = none)
    (hpage : getFirst pageKey search = none)
    (hlang : getFirst langKey search = none)
    (hengine : getFirst engineKey search = none) :
    safeSearchOf search = "strict".data ∧
    pageOf search = some 0 ∧
    languageOf search = "en-GB".data ∧
    engineOf search = "duckduckgo".data ∧
    failedOf search = "false".data ∧
    webRequestUrl search =
      "https://unmappedstack.pythonanywhere.com/api/search?q=".data ++
        (encodeURIComponent q ++
          "&safe=strict&page=0&language=en-GB&engine=duckduckgo".data) := by
  have h1 : safeSearchOf search = "strict".data := by
    simp [safeSearchOf, hsafe, jsOr]
  have h2 : pageOf search = some 0 := by
    simp only [pageOf, hpage, jsOr]
    rfl
  have h3 : languageOf search = "en-GB".data := by
    simp [languageOf, hlang, jsOr]
  have h4 : engineOf search = "duckduckgo".data := by
    simp [engineOf, hengine, jsOr]
  have h5 : failedOf search = "false".data := by
    simp [failedOf, hfailed, jsOr]
  refine ⟨h1, h2, h3, h4, h5, ?_⟩
  unfold webRequestUrl encodedQueryOf
  rw [h1, h2, h3, h4]
  unfold queryOf'
  rw [hq]
  rw [show jsStringOrNull (some q) = q from rfl]
  simp only [List.append_assoc]
  rw [List.append_right_inj, List.append_right_inj]
  decide

/-- Witness for C9 at `?q=nilch`. -/
theorem web_request_default_parameters_witness :
    (getFirst qKey [(qKey, "nilch".data)] = some ("nilch".data) ∧
     getFirst safeKey [(qKey, "nilch".data)] = none ∧
     getFirst failedKey [(qKey, "nilch".data)] = none ∧
     getFirst pageKey [(qKey, "nilch".data)] = none ∧
     getFirst langKey [(qKey, "nilch".data)] = none ∧
     getFirst engineKey [(qKey, "nilch".data)] = none) ∧
    (safeSearchOf [(qKey, "nilch".data)] = "strict".data ∧
     pageOf [(qKey, "nilch".data)] = some 0 ∧
     languageOf [(qKey, "nilch".data)] = "en-GB".data ∧
     engineOf [(qKey, "nilch".data)] = "duckduckgo".data ∧
     failedOf [(qKey, "nilch".data)] = "false".data ∧
     webRequestUrl [(qKey, "nilch".data)] =
       "https://unmappedstack.pythonanywhere.com/api/search?q=".data ++
         (encodeURIComponent ("nilch".data) ++
           "&safe=strict&page=0&language=en-GB&engine=duckduckgo".data)) :=
  ⟨⟨by decide, by decide, by decide, by decide, by decide, by decide⟩,
   web_request_default_parameters [(qKey, "nilch".data)] ("nilch".data)
     (by decide) (by decide) (by decide) (by decide) (by decide) (by decide)⟩

/-- Claim C10: a video item with a well-formed `images` object but missing
optional fields gets every documented fallback (placeholder thumbnail,
`Untitled Video`, `Unknown Creator`/`Unknown Platform`); a result item
whose `images` member is missing altogether makes the render loop throw, so
the cards rendered are exactly those before it, every later item is
dropped, and the `catch` handler replaces the `#results` container with the
generic error message (no pagination is created). -/
theorem video_missing_images_throws (v : VideoItem)
    (himg : v.images = .objVal none)
    (bad : VideoItem) (hbad : bad.images = .missing)
    (pre post : List VideoItem) (cs : List VideoCard)
    (hpre : renderVideoList pre = (cs, false))
    (href0 : List Char) (search : Params) :
    (∃ c, buildVideoCard v = some c ∧
       c.thumbSrc = videoPlaceholderThumb ∧
       (v.title = none → c.titleText = "Untitled Video".data) ∧
       (v.uploader = none → v.publisher = none →
          c.metaText = "Unknown Creator • Unknown Platform".data)) ∧
    renderVideoList (pre ++ bad :: post) = (cs, true) ∧
    renderVideoPayload href0 search (pre ++ bad :: post) =
      ⟨some .catchMsg, cs, none⟩ := by
  have hbadcard : buildVideoCard bad = none := by
    unfold buildVideoCard
    rw [hbad]
  have hb : buildVideoCard v = some
      { href := jsOr v.content ("#".data)
        thumbSrc := videoPlaceholderThumb
        titleText := jsOr v.title ("Untitled Video".data)
        metaText := jsOr v.uploader ("Unknown Creator".data) ++ " • ".data ++
          jsOr v.publisher ("Unknown Platform".data) } := by
    unfold buildVideoCard
    rw [himg]
  have hlist := renderVideoList_append_throw bad hbadcard post pre cs hpre
  refine ⟨⟨_, hb, rfl, fun ht => ?_, fun hu hp => ?_⟩, hlist, ?_⟩
  · simp [ht, jsOr]
  · simp only [hu, hp, jsOr]
    decide
  · unfold renderVideoPayload
    rw [hlist]
    simp

/-- Witness for C10: the all-fallback item renders before the bad item; the
bad item aborts the list and the error message replaces `#results`. -/
theorem video_missing_images_throws_witness :
    (exVideoItem.images = ImagesField.objVal none ∧
     exBadVideoItem.images = ImagesField.missing ∧
     renderVideoList [exVideoItem] = ([exVideoCard], false)) ∧
    ((∃ c, buildVideoCard exVideoItem = some c ∧
        c.thumbSrc = videoPlaceholderThumb ∧
        (exVideoItem.title = none → c.titleText = "Untitled Video".data) ∧
        (exVideoItem.uploader = none → exVideoItem.publisher = none →
           c.metaText = "Unknown Creator • Unknown Platform".data)) ∧
     renderVideoList ([exVideoItem] ++ exBadVideoItem :: [exVideoItem]) =
       ([exVideoCard], true) ∧
     renderVideoPayload exVideoHref exSearchW
         ([exVideoItem] ++ exBadVideoItem :: [exVideoItem]) =
       ⟨some .catchMsg, [exVideoCard], none⟩) :=
  ⟨⟨rfl, rfl, rfl⟩,
   video_missing_images_throws exVideoItem rfl exBadVideoItem rfl
     [exVideoItem] [exVideoItem] [exVideoCard] rfl exVideoHref exSearchW⟩

end Nilch
